import Mathlib

/-!
Shallow embedding, in Lean 4, of the chanjo fragment:

* `src/chanjo/annotate/sambamba/run.py` — `run_sambamba`: construction of the
  external `sambamba depth region` command line and its invocation through
  `subprocess.check_call`, with an `except OSError` handler that evaluates
  `sys.exit()` (note: `run.py` never imports `sys`).
* `src/chanjo/store/txmodels.py` — the declarative schema: `Transcript`,
  `Sample`, `TranscriptStat` (columns, nullability, the unique constraint on
  `(sample_id, transcript_id)`, plain foreign keys) and the
  `incomplete_exons` property pair (comma join on write, comma split on read,
  with Python truthiness guarding the empty/None case).
* `src/chanjo/cli/root.py` — resolution of the backing-store path from the
  `--database` option, the config file and the hard default.

Python strings are modelled as `String` where only equality matters and as
`List Char` where character-level split/join semantics matter; `None`-able
values are modelled as `Option`; SQL `Float` column values are modelled as
`Option ℚ` (a stored numeric value or NULL — no arithmetic is performed on
them here); exceptions are modelled with `Except`.
-/

/-! ## chanjo/annotate/sambamba/run.py -/

/-- Python exceptions that can arise in `run_sambamba`. -/
inductive PyExc where
  /-- `OSError`: raised by `subprocess.check_call` when the executable cannot
  be invoked (e.g. the program does not exist). -/
  | osError
  /-- `subprocess.CalledProcessError`: raised by `subprocess.check_call` when
  the child process exits with a non-zero return code. -/
  | calledProcessError (returncode : Int)
  /-- `NameError`: raised when an unbound name is evaluated. -/
  | nameError (missing : String)
  /-- `SystemExit`: raised by `sys.exit()`. -/
  | systemExit
deriving DecidableEq, Repr

/-- Behaviour of the operating system when asked to run the sambamba command:
either the executable is missing (invocation fails with `OSError`) or the
process runs and exits with some return code. -/
inductive SubprocessBehavior where
  | execMissing
  | exits (returncode : Int)
deriving DecidableEq, Repr

/-- Semantics of `subprocess.check_call`: `OSError` when the executable is
missing, `CalledProcessError` on a non-zero exit, normal return otherwise. -/
def check_call (b : SubprocessBehavior) : Except PyExc Unit :=
  match b with
  | .execMissing => .error .osError
  | .exits rc => if rc = 0 then .ok () else .error (.calledProcessError rc)

/-- Python truthiness of an optional string: `None` and the empty string are
falsy, every other string is truthy. -/
def pyTruthyStr (s : Option String) : Bool :=
  match s with
  | none => false
  | some s => !(s = "")

/-- Command-list construction performed by `run_sambamba` in
`chanjo/annotate/sambamba/run.py`: start from the fixed six-element call,
append `["-o", outfile]` under `if outfile:` (Python truthiness), then loop
over `cov_treshold` appending one `["-T", str(t)]` pair per threshold. -/
def run_sambamba_call (bam_file region_file : String) (outfile : Option String)
    (cov_treshold : List Int) : List String :=
  let sambamba_call : List String :=
    ["sambamba", "depth", "region", "--regions", region_file, bam_file]
  let sambamba_call :=
    if pyTruthyStr outfile then sambamba_call ++ ["-o", outfile.getD ""]
    else sambamba_call
  cov_treshold.foldl (fun call t => call ++ ["-T", toString t]) sambamba_call

/-- Names bound at module level in `run.py`: its imports are `subprocess`,
`logging` and `get_log_stream` — `sys` is absent. -/
def run_module_globals : List String := ["subprocess", "logging", "get_log_stream"]

/-- Control flow of `run_sambamba`: build the command, invoke
`subprocess.check_call` on it; on `OSError` the handler logs and evaluates
`sys.exit()`, which raises `SystemExit` only if the name `sys` is bound,
and otherwise raises `NameError`; any other exception propagates unchanged;
on success the function returns `None`. The parameter `os` gives the
operating-system behaviour for the constructed command. -/
def run_sambamba (bam_file region_file : String) (outfile : Option String)
    (cov_treshold : List Int) (os : List String → SubprocessBehavior) :
    Except PyExc Unit :=
  let sambamba_call := run_sambamba_call bam_file region_file outfile cov_treshold
  match check_call (os sambamba_call) with
  | .ok () => .ok ()
  | .error .osError =>
      if "sys" ∈ run_module_globals then .error .systemExit
      else .error (.nameError "sys")
  | .error e => .error e

/-- Threshold arguments of the sambamba call in closed form: one
`["-T", str(t)]` pair per threshold, in order. -/
def threshold_args (cov_treshold : List Int) : List String :=
  (cov_treshold.map (fun t => ["-T", toString t])).flatten

theorem foldl_append_args (f : Int → List String) :
    ∀ (l : List Int) (init : List String),
      l.foldl (fun call t => call ++ f t) init = init ++ (l.map f).flatten := by
  intro l
  induction l with
  | nil => intro init; simp
  | cons t l ih =>
      intro init
      simp [List.foldl_cons, ih, List.append_assoc]

/-! ## chanjo/store/txmodels.py — the declarative schema -/

/-- Row of the `sample` table (`Sample` in txmodels.py): primary key `id`,
nullable `group_id` and `source`. The `created_at` timestamp is opaque here
and modelled as a natural number. -/
structure SampleRow where
  id : String
  group_id : Option String
  source : Option String
  created_at : Nat
deriving DecidableEq, Repr

/-- Row of the `transcript` table (`Transcript` in txmodels.py): primary key
`id`, non-nullable `gene_id`, nullable `chromosome` and `length`. -/
structure TranscriptRow where
  id : String
  gene_id : String
  chromosome : Option String
  length : Option Int
deriving DecidableEq, Repr

/-- Row of the `transcript_stat` table (`TranscriptStat` in txmodels.py).
Columns declared `nullable=False` in the source (`id`, `sample_id`,
`transcript_id`, `mean_coverage`) could still hold NULL in a raw row, so
every value column is an `Option`; schema validity is a separate predicate.
Float columns hold `Option ℚ`, `_incomplete_exons` holds the raw stored
text as an optional character list. -/
structure TranscriptStatRow where
  id : Nat
  sample_id : String
  transcript_id : String
  mean_coverage : Option ℚ
  completeness_10 : Option ℚ
  completeness_15 : Option ℚ
  completeness_20 : Option ℚ
  completeness_50 : Option ℚ
  completeness_100 : Option ℚ
  threshold : Option Int
  _incomplete_exons : Option (List Char)
deriving DecidableEq, Repr

/-- Declared nullability of one column. -/
structure ColumnSpec where
  name : String
  nullable : Bool
deriving DecidableEq, Repr

/-- Columns of the `transcript_stat` table with their declared nullability,
transcribed from txmodels.py: `id` is the primary key, `sample_id`,
`transcript_id` and `mean_coverage` carry `nullable=False`; the five
completeness columns, `threshold` and `_incomplete_exons` are left at the
default (nullable). -/
def transcript_stat_columns : List ColumnSpec :=
  [⟨"id", false⟩,
   ⟨"sample_id", false⟩,
   ⟨"transcript_id", false⟩,
   ⟨"mean_coverage", false⟩,
   ⟨"completeness_10", true⟩,
   ⟨"completeness_15", true⟩,
   ⟨"completeness_20", true⟩,
   ⟨"completeness_50", true⟩,
   ⟨"completeness_100", true⟩,
   ⟨"threshold", true⟩,
   ⟨"_incomplete_exons", true⟩]

/-- Whether the value a row stores under the given column name is NULL.
Columns whose Lean field type is not an `Option` (`id`, `sample_id`,
`transcript_id`) are never NULL in this model. -/
def columnIsNull (r : TranscriptStatRow) (name : String) : Bool :=
  if name = "mean_coverage" then r.mean_coverage.isNone
  else if name = "completeness_10" then r.completeness_10.isNone
  else if name = "completeness_15" then r.completeness_15.isNone
  else if name = "completeness_20" then r.completeness_20.isNone
  else if name = "completeness_50" then r.completeness_50.isNone
  else if name = "completeness_100" then r.completeness_100.isNone
  else if name = "threshold" then r.threshold.isNone
  else if name = "_incomplete_exons" then r._incomplete_exons.isNone
  else false

/-- A row is admitted by the declared schema when every `nullable=False`
column holds a non-NULL value. -/
def rowSchemaValid (r : TranscriptStatRow) : Bool :=
  transcript_stat_columns.all (fun c => c.nullable || !(columnIsNull r c.name))

/-- Declared unique constraint: a list of column names and a constraint
name. -/
structure UniqueConstraintSpec where
  columns : List String
  name : String
deriving DecidableEq, Repr

/-- The `__table_args__` of `TranscriptStat`:
`UniqueConstraint('sample_id', 'transcript_id', name='_sample_transcript_uc')`. -/
def transcript_stat_table_args : List UniqueConstraintSpec :=
  [⟨["sample_id", "transcript_id"], "_sample_transcript_uc"⟩]

/-- String-valued projection of a `transcript_stat` row onto a named column,
for evaluating declared uniqueness constraints. -/
def colValue (r : TranscriptStatRow) (name : String) : Option String :=
  if name = "id" then some (toString r.id)
  else if name = "sample_id" then some r.sample_id
  else if name = "transcript_id" then some r.transcript_id
  else none

/-- A table (list of rows) satisfies a declared unique constraint when any
two rows agreeing on all the constraint's columns are the same row. -/
def satisfiesUniqueConstraint (uc : UniqueConstraintSpec)
    (rows : List TranscriptStatRow) : Prop :=
  ∀ r1 ∈ rows, ∀ r2 ∈ rows,
    uc.columns.map (colValue r1) = uc.columns.map (colValue r2) → r1 = r2

instance (uc : UniqueConstraintSpec) (rows : List TranscriptStatRow) :
    Decidable (satisfiesUniqueConstraint uc rows) := by
  unfold satisfiesUniqueConstraint; infer_instance

/-- Declared foreign key: referencing column, referenced column, and the
`ondelete` action if one is declared. -/
structure ForeignKeySpec where
  column : String
  references : String
  ondelete : Option String
deriving DecidableEq, Repr

/-- Foreign keys declared on `transcript_stat` in txmodels.py:
`ForeignKey('sample.id')` on `sample_id` and `ForeignKey('transcript.id')`
on `transcript_id`. Neither call passes an `ondelete` action. -/
def transcript_stat_foreign_keys : List ForeignKeySpec :=
  [⟨"sample_id", "sample.id", none⟩,
   ⟨"transcript_id", "transcript.id", none⟩]

/-- Database state: the three tables of the store. -/
structure Db where
  samples : List SampleRow
  transcripts : List TranscriptRow
  stats : List TranscriptStatRow
deriving DecidableEq, Repr

/-- Whether a declared foreign-key list makes deletes on the referenced side
cascade through the given referencing column. -/
def fkCascadesOnDelete (fks : List ForeignKeySpec) (column : String) : Bool :=
  fks.any (fun fk => fk.column = column && fk.ondelete = some "CASCADE")

/-- Relational semantics of deleting a sample row under a declared
foreign-key list: the sample row goes away; dependent `transcript_stat`
rows are deleted too exactly when the `sample_id` foreign key declares
`ondelete='CASCADE'`, and are left in place otherwise. -/
def deleteSample (fks : List ForeignKeySpec) (db : Db) (sid : String) : Db :=
  { db with
    samples := db.samples.filter (fun s => !(s.id = sid)),
    stats :=
      if fkCascadesOnDelete fks "sample_id" then
        db.stats.filter (fun st => !(st.sample_id = sid))
      else db.stats }

/-- Relational semantics of deleting a transcript row, symmetric to
`deleteSample` through the `transcript_id` foreign key. -/
def deleteTranscript (fks : List ForeignKeySpec) (db : Db) (tid : String) : Db :=
  { db with
    transcripts := db.transcripts.filter (fun t => !(t.id = tid)),
    stats :=
      if fkCascadesOnDelete fks "transcript_id" then
        db.stats.filter (fun st => !(st.transcript_id = tid))
      else db.stats }

/-- A stats row is an orphan when no sample row carries its `sample_id`. -/
def hasOrphanStat (db : Db) : Bool :=
  db.stats.any (fun st => db.samples.all (fun s => !(s.id = st.sample_id)))

/-! ### The incomplete_exons property pair

Python strings are modelled character by character as `List Char`:
`','.join(value)` is `[','].intercalate value` and `s.split(',')` is
`s.splitOn ','` (both agree with Python on all inputs, including
`''.split(',') == ['']`). -/

/-- Setter of `TranscriptStat.incomplete_exons`: stores `','.join(value)`. -/
def incomplete_exons_set (value : List (List Char)) : Option (List Char) :=
  some ([','].intercalate value)

/-- Getter of `TranscriptStat.incomplete_exons`:
`self._incomplete_exons.split(',') if self._incomplete_exons else []` —
by Python truthiness a stored `None` or empty string yields `[]`, any other
stored string is split on commas. -/
def incomplete_exons_get (stored : Option (List Char)) : List (List Char) :=
  match stored with
  | none => []
  | some s => if s = [] then [] else s.splitOn ','

/-! ### Completeness columns -/

/-- Thresholds for which `TranscriptStat` declares a named completeness
column: `completeness_10`, `completeness_15`, `completeness_20`,
`completeness_50`, `completeness_100`. -/
def completeness_column_thresholds : List Nat := [10, 15, 20, 50, 100]

/-- Stored completeness value of a row at a threshold: `some` the column's
(possibly NULL) value for the five thresholds that have a named column in
txmodels.py, and `none` — no such field exists on the record — for every
other threshold. -/
def completenessAt (r : TranscriptStatRow) (t : Nat) : Option (Option ℚ) :=
  if t = 10 then some r.completeness_10
  else if t = 15 then some r.completeness_15
  else if t = 20 then some r.completeness_20
  else if t = 50 then some r.completeness_50
  else if t = 100 then some r.completeness_100
  else none

/-! ## chanjo/cli/root.py -/

/-- Resolution of the backing-store path in the `root` CLI group:
`context.obj['database'] = database or context.obj.get('database', 'coverage.sqlite3')`.
The first argument is the `--database` option (`None` when not given), the
second the config file's `'database'` entry (`none` when the key is absent).
Python `or` takes the left operand when it is truthy (a non-empty string). -/
def resolve_database (database : Option String) (config_database : Option String) :
    String :=
  let fallback := config_database.getD "coverage.sqlite3"
  match database with
  | none => fallback
  | some d => if d = "" then fallback else d

/-! ## Aggregator arithmetic, modelled from the spec

The coverage aggregator itself is not part of the source fragment (only its
schema and the sambamba invocation are), so the two length-0 computations
are modelled from the spec. -/

/-- Modelled from the spec: the coverage aggregator's mean-coverage
computation, absent from src/ — "mean coverage = (sum of per-base depth
across all bases in the transcript's merged exon set) / (transcript
length), with length 0 treated as `undefined` (reported as null/NaN, never
a division fault)". Total function: length 0 yields `none`. -/
def aggregator_mean_coverage (depth_sum : ℚ) (length : Nat) : Option ℚ :=
  if length = 0 then none else some (depth_sum / length)

/-- Modelled from the spec: the coverage aggregator's completeness
computation, absent from src/ — "completeness at threshold T = (count of
transcript bases with depth ≥ T) / (transcript length)", with length 0
undefined like mean coverage. Total function: length 0 yields `none`. -/
def aggregator_completeness (bases_at_or_above : Nat) (length : Nat) : Option ℚ :=
  if length = 0 then none else some ((bases_at_or_above : ℚ) / length)

/-! ### Concrete rows used by witnesses and counterexamples -/

/-- A schema-valid stats row with every nullable column NULL. -/
def statRowA : TranscriptStatRow :=
  { id := 1, sample_id := "S1", transcript_id := "T1", mean_coverage := some 7,
    completeness_10 := none, completeness_15 := none, completeness_20 := none,
    completeness_50 := none, completeness_100 := none, threshold := none,
    _incomplete_exons := none }

/-- A second stats row over a different (sample, transcript) pair. -/
def statRowB : TranscriptStatRow :=
  { id := 2, sample_id := "S2", transcript_id := "T1", mean_coverage := some 3,
    completeness_10 := some 1, completeness_15 := some 1,
    completeness_20 := some 0, completeness_50 := some 0,
    completeness_100 := some 0, threshold := some 10,
    _incomplete_exons := some ['e', '1'] }

/-- A stats row whose `mean_coverage` is NULL. -/
def statRowNullMean : TranscriptStatRow :=
  { statRowA with id := 3, mean_coverage := none }

/-- A one-sample, one-transcript, one-stat database. -/
def dbOne : Db :=
  { samples := [{ id := "S1", group_id := none, source := none, created_at := 0 }],
    transcripts := [{ id := "T1", gene_id := "G1", chromosome := none,
                      length := some 100 }],
    stats := [statRowA] }

/-! ## Claims -/

/-- C1: in any `transcript_stat` table satisfying the unique constraints
declared in `__table_args__` of `TranscriptStat`, two rows sharing both
`sample_id` and `transcript_id` are the same row: the declared
`UniqueConstraint('sample_id', 'transcript_id')` forces the pair to be
unique. -/
theorem transcript_stat_unique_pair :
    ∀ rows : List TranscriptStatRow,
      (∀ uc ∈ transcript_stat_table_args, satisfiesUniqueConstraint uc rows) →
      ∀ r1 ∈ rows, ∀ r2 ∈ rows,
        r1.sample_id = r2.sample_id → r1.transcript_id = r2.transcript_id →
        r1 = r2 := by
  intro rows h r1 h1 r2 h2 hs ht
  have huc := h ⟨["sample_id", "transcript_id"], "_sample_transcript_uc"⟩
    (by simp [transcript_stat_table_args])
  exact huc r1 h1 r2 h2 (by simp [colValue, hs, ht])

/-- Witness for C1: a concrete two-row table satisfying the declared
constraints, with the conclusion instantiated at a concrete pair of rows. -/
theorem transcript_stat_unique_pair_witness : statRowA = statRowA :=
  transcript_stat_unique_pair [statRowA, statRowB] (by decide)
    statRowA (by simp) statRowA (by simp) rfl rfl

/-- C2 counterexample: with a supplied but empty output-file string, the
Python truthiness test `if outfile:` fails and `run_sambamba` does not
append the `["-o", outfile]` pair, so the built command differs from the
claimed shape at this input. -/
theorem run_sambamba_call_empty_outfile_cex :
    run_sambamba_call "aln.bam" "regions.bed" (some "") [] ≠
      ["sambamba", "depth", "region", "--regions", "regions.bed", "aln.bam"]
        ++ ["-o", ""] := by decide

/-- C2 (amended): the built command is the fixed six-element call, followed
by `["-o", outfile]` exactly when a truthy (that is, non-empty) output file
string is supplied, followed by one `["-T", str(t)]` pair per threshold in
the given order. -/
theorem run_sambamba_call_shape :
    ∀ (bam_file region_file : String) (cov_treshold : List Int),
      run_sambamba_call bam_file region_file none cov_treshold =
        ["sambamba", "depth", "region", "--regions", region_file, bam_file]
          ++ threshold_args cov_treshold
      ∧ run_sambamba_call bam_file region_file (some "") cov_treshold =
        ["sambamba", "depth", "region", "--regions", region_file, bam_file]
          ++ threshold_args cov_treshold
      ∧ ∀ o : String, o ≠ "" →
          run_sambamba_call bam_file region_file (some o) cov_treshold =
            ["sambamba", "depth", "region", "--regions", region_file, bam_file]
              ++ ["-o", o] ++ threshold_args cov_treshold := by
  intro bam_file region_file cov_treshold
  refine ⟨?_, ?_, ?_⟩
  · simp only [run_sambamba_call, pyTruthyStr, Bool.false_eq_true, if_false,
      threshold_args]
    exact foldl_append_args _ cov_treshold _
  · simp only [run_sambamba_call, pyTruthyStr, threshold_args]
    norm_num
    exact foldl_append_args _ cov_treshold _
  · intro o ho
    simp only [run_sambamba_call, pyTruthyStr, threshold_args, Option.getD_some,
      ho, bne_iff_ne, ne_eq, not_false_eq_true, if_true, List.append_assoc]
    rw [foldl_append_args _ cov_treshold _]
    simp [List.append_assoc]

/-- Witness for C2: the command built for a concrete alignment file, region
file, non-empty output file and thresholds 10 and 20. -/
theorem run_sambamba_call_shape_witness :
    run_sambamba_call "aln.bam" "regions.bed" (some "out.cov") [10, 20] =
      ["sambamba", "depth", "region", "--regions", "regions.bed", "aln.bam"]
        ++ ["-o", "out.cov"] ++ threshold_args [10, 20] :=
  (run_sambamba_call_shape "aln.bam" "regions.bed" [10, 20]).2.2 "out.cov"
    (by decide)

/-- C3: when the sambamba executable is missing, `subprocess.check_call`
raises `OSError` and the handler in `run.py` evaluates `sys.exit()`; since
`run.py` never imports `sys`, the evaluation raises `NameError` rather than
the intended clean `SystemExit`. The function still aborts abnormally —
with the wrong exception. -/
theorem run_sambamba_missing_exec_name_error :
    ∀ (bam_file region_file : String) (outfile : Option String)
      (cov_treshold : List Int),
      run_sambamba bam_file region_file outfile cov_treshold
          (fun _ => .execMissing) =
        .error (.nameError "sys") := by
  intro bam_file region_file outfile cov_treshold
  rfl

/-- C4: when the external tool runs but exits with a non-zero status,
`subprocess.check_call` raises `CalledProcessError`, which the
`except OSError` clause does not catch, so it propagates to the caller and
`run_sambamba` does not return normally. -/
theorem run_sambamba_nonzero_exit_propagates :
    ∀ (bam_file region_file : String) (outfile : Option String)
      (cov_treshold : List Int) (rc : Int), rc ≠ 0 →
      run_sambamba bam_file region_file outfile cov_treshold
          (fun _ => .exits rc) =
        .error (.calledProcessError rc) := by
  intro bam_file region_file outfile cov_treshold rc h
  simp [run_sambamba, check_call, h]

/-- Witness for C4: exit status 1 on a concrete invocation propagates as
`CalledProcessError 1`. -/
theorem run_sambamba_nonzero_exit_propagates_witness :
    run_sambamba "aln.bam" "regions.bed" none [] (fun _ => .exits 1) =
      .error (.calledProcessError 1) :=
  run_sambamba_nonzero_exit_propagates "aln.bam" "regions.bed" none [] 1
    (by decide)

/-- C5 counterexample: an exon id containing the comma delimiter does not
survive the store round trip — writing the one-element list whose id is
"a,b" and reading it back yields the two-element list ["a", "b"]. -/
theorem incomplete_exons_roundtrip_cex :
    incomplete_exons_get (incomplete_exons_set [['a', ',', 'b']]) ≠
      [['a', ',', 'b']] := by decide

/-- C5 (amended): the setter/getter pair of `incomplete_exons` is a round
trip for every list of exon ids in which no id contains the comma
delimiter, except the singleton list holding the empty id (whose encoding
is the empty string, which the getter's truthiness test turns into the
empty list). -/
theorem incomplete_exons_roundtrip :
    ∀ value : List (List Char), (∀ s ∈ value, ',' ∉ s) → value ≠ [[]] →
      incomplete_exons_get (incomplete_exons_set value) = value := by
  intro value hnc hne
  cases value with
  | nil => rfl
  | cons v vs =>
      have hmain : (List.splitOn ',' ([','].intercalate (v :: vs))) = v :: vs :=
        List.splitOn_intercalate (v :: vs) ',' hnc (List.cons_ne_nil v vs)
      have hne2 : [','].intercalate (v :: vs) ≠ [] := by
        intro h
        rw [h, List.splitOn_nil] at hmain
        injection hmain with h1 h2
        exact hne (by rw [← h1, ← h2])
      simp only [incomplete_exons_set, incomplete_exons_get]
      rw [if_neg hne2]
      exact hmain

/-- Witness for C5: the comma-free exon ids "e1" and "e2" survive the round
trip. -/
theorem incomplete_exons_roundtrip_witness :
    incomplete_exons_get (incomplete_exons_set [['e', '1'], ['e', '2']]) =
      [['e', '1'], ['e', '2']] :=
  incomplete_exons_roundtrip [['e', '1'], ['e', '2']] (by decide) (by decide)

/-- C6 counterexample: a stats row whose `mean_coverage` is NULL is
rejected by the declared schema, because txmodels.py declares
`mean_coverage = Column(types.Float, nullable=False)` — so the stored
schema does not admit an undefined (NULL) mean coverage. -/
theorem mean_coverage_null_rejected_cex :
    rowSchemaValid statRowNullMean = false := by decide

/-- C6 (amended): for a transcript of merged exon length 0, the aggregator
computations (modelled from the spec) yield undefined (`none`) for both
mean coverage and completeness without any division fault, and the declared
schema admits NULL in every completeness column; but `mean_coverage` is
declared NOT NULL, so a schema-valid row can never store an undefined
(NULL) mean coverage. -/
theorem length_zero_undefined_and_schema :
    (∀ depth_sum : ℚ, aggregator_mean_coverage depth_sum 0 = none) ∧
    (∀ bases : Nat, aggregator_completeness bases 0 = none) ∧
    (∀ r : TranscriptStatRow, rowSchemaValid r = true → r.mean_coverage ≠ none) ∧
    (rowSchemaValid statRowA = true ∧ statRowA.completeness_10 = none ∧
      statRowA.completeness_15 = none ∧ statRowA.completeness_20 = none ∧
      statRowA.completeness_50 = none ∧ statRowA.completeness_100 = none) := by
  refine ⟨fun _ => rfl, fun _ => rfl, ?_, by decide⟩
  intro r h hmean
  simp [rowSchemaValid, transcript_stat_columns, columnIsNull, hmean] at h

/-- Witness for C6: the schema-valid row `statRowA` indeed has a non-NULL
mean coverage. -/
theorem length_zero_undefined_and_schema_witness :
    statRowA.mean_coverage ≠ none :=
  length_zero_undefined_and_schema.2.2.1 statRowA (by decide)

/-- C7 counterexample: under the foreign keys actually declared on
`transcript_stat` (no ondelete action), deleting sample "S1" from a
concrete store holding one stat row for "S1" leaves that row behind as an
orphan — the claimed cascading delete does not happen. -/
theorem delete_sample_orphan_cex :
    hasOrphanStat (deleteSample transcript_stat_foreign_keys dbOne "S1") =
      true := by decide

/-- C7 (amended): the stats table's foreign keys reference `sample.id` and
`transcript.id` but declare no ondelete action at all, so under the
declared schema deleting a Sample or a Transcript leaves every
TranscriptStat row in place (orphans can remain; nothing cascades). -/
theorem foreign_keys_no_cascade :
    (transcript_stat_foreign_keys.all (fun fk => fk.ondelete.isNone) = true) ∧
    (transcript_stat_foreign_keys.map (fun fk => (fk.column, fk.references)) =
      [("sample_id", "sample.id"), ("transcript_id", "transcript.id")]) ∧
    (∀ (db : Db) (sid : String),
      (deleteSample transcript_stat_foreign_keys db sid).stats = db.stats) ∧
    (∀ (db : Db) (tid : String),
      (deleteTranscript transcript_stat_foreign_keys db tid).stats = db.stats) := by
  refine ⟨rfl, rfl, ?_, ?_⟩
  · intro db sid
    simp [deleteSample, fkCascadesOnDelete, transcript_stat_foreign_keys]
  · intro db tid
    simp [deleteTranscript, fkCascadesOnDelete, transcript_stat_foreign_keys]

/-- C8 counterexample: the `TranscriptStat` record has no completeness
field for the caller-supplied threshold 30 — thresholds beyond the five
named columns are not representable on the record. -/
theorem completeness_threshold_30_cex :
    completenessAt statRowB 30 = none := by decide

/-- C8 (amended): the record exposes a completeness field for a threshold
exactly when the threshold is one of the five canonical defaults
10, 15, 20, 50, 100; no other (arbitrary caller-supplied) threshold has a
field on the record. -/
theorem completeness_fields_exactly_defaults :
    ∀ (r : TranscriptStatRow) (t : Nat),
      (completenessAt r t).isSome = true ↔
        t ∈ completeness_column_thresholds := by
  intro r t
  simp only [completenessAt, completeness_column_thresholds, List.mem_cons,
    List.not_mem_nil, or_false]
  split_ifs with h1 h2 h3 h4 h5 <;> simp_all

/-- C9: the getter of `incomplete_exons` maps a stored NULL and a stored
empty string to the empty list (the truthiness guard, so no attribute error
is possible), and every stored non-empty encoding decodes to the non-empty
list of its comma-separated fragments. -/
theorem incomplete_exons_get_safe :
    incomplete_exons_get none = [] ∧
    incomplete_exons_get (some []) = [] ∧
    ∀ s : List Char, s ≠ [] →
      incomplete_exons_get (some s) = s.splitOn ',' ∧
      incomplete_exons_get (some s) ≠ [] := by
  refine ⟨rfl, rfl, ?_⟩
  intro s hs
  have h1 : incomplete_exons_get (some s) = s.splitOn ',' := by
    simp [incomplete_exons_get, hs]
  refine ⟨h1, ?_⟩
  rw [h1]
  simp only [List.splitOn]
  exact List.splitOnP_ne_nil _ s

/-- Witness for C9: the stored encoding "e1,e2" decodes to the non-empty
fragment list ["e1", "e2"]. -/
theorem incomplete_exons_get_safe_witness :
    incomplete_exons_get (some ['e', '1', ',', 'e', '2']) =
        [['e', '1'], ['e', '2']] ∧
      incomplete_exons_get (some ['e', '1', ',', 'e', '2']) ≠ [] := by
  have h := incomplete_exons_get_safe.2.2 ['e', '1', ',', 'e', '2'] (by decide)
  exact ⟨by rw [h.1]; decide, h.2⟩

/-- C10: the backing-store path resolution of the `root` CLI group: a
truthy (non-empty) `--database` value wins; otherwise the config file's
`database` entry is used when present (even when the option was passed as
the falsy empty string); otherwise the default `coverage.sqlite3`. -/
theorem resolve_database_precedence :
    (∀ (d : String) (cfg : Option String), d ≠ "" →
      resolve_database (some d) cfg = d) ∧
    (∀ c : String, resolve_database none (some c) = c) ∧
    (∀ c : String, resolve_database (some "") (some c) = c) ∧
    resolve_database none none = "coverage.sqlite3" ∧
    resolve_database (some "") none = "coverage.sqlite3" := by
  refine ⟨?_, fun c => rfl, fun c => rfl, rfl, rfl⟩
  intro d cfg hd
  simp [resolve_database, hd]

/-- Witness for C10: a non-empty command-line value beats a config value. -/
theorem resolve_database_precedence_witness :
    resolve_database (some "cov.db") (some "cfg.db") = "cov.db" :=
  resolve_database_precedence.1 "cov.db" (some "cfg.db") (by decide)
